import Mathlib

/-!
# Brisk Menu MATE applet (`src/mate-applet/applet.c`)

A shallow embedding of the decision logic of the panel applet: the
orientation to anchor-position conversion, the layout adaptation, the icon
name resolution, the icon size selection, the choice of the menu-window
variant, the toggle click handler and the preference-change callback.

GTK widgets are represented by the properties the applet reads and writes.
Menu windows live in an explicit table of live toplevel windows; the applet's
`menu` field is a pointer into that table, so that "destroyed" and "the same
instance" are observable.
-/

namespace BriskMenu

/-! ## Enumerations -/

/-- The panel orientation handed over by the panel host. The four named
enumerators are the ones the source switches on; `unrecognised` stands for any
other integer value, which the source sends to its `default:` branches. -/
inductive MatePanelAppletOrient where
  | MATE_PANEL_APPLET_ORIENT_UP
  | MATE_PANEL_APPLET_ORIENT_DOWN
  | MATE_PANEL_APPLET_ORIENT_LEFT
  | MATE_PANEL_APPLET_ORIENT_RIGHT
  | unrecognised (raw : Nat)
  deriving DecidableEq, Repr

/-- The anchor position given to the menu window. -/
inductive GtkPositionType where
  | GTK_POS_LEFT
  | GTK_POS_RIGHT
  | GTK_POS_TOP
  | GTK_POS_BOTTOM
  deriving DecidableEq, Repr

/-- Horizontal alignment of a widget. -/
inductive GtkAlign where
  | GTK_ALIGN_FILL
  | GTK_ALIGN_START
  | GTK_ALIGN_END
  | GTK_ALIGN_CENTER
  | GTK_ALIGN_BASELINE
  deriving DecidableEq, Repr

/-- The value of the `window-type` preference as read by
`g_settings_get_enum`. `unrecognised` stands for any integer that is none of
the three enumerators named in `brisk_menu_applet_create_window`; the source
handles it in the `default:` label. -/
inductive WindowType where
  | WINDOW_TYPE_CLASSIC
  | WINDOW_TYPE_DASH
  | WINDOW_TYPE_AUTOMATIC
  | unrecognised (raw : Nat)
  deriving DecidableEq, Repr

/-- Which of the two constructors built a menu window:
`brisk_classic_window_new` or `brisk_dash_window_new`. -/
inductive WindowVariant where
  | classic
  | dash
  deriving DecidableEq, Repr

/-! ## State -/

/-- The keys of the schema `com.solus-project.brisk-menu` that the applet
reads. -/
structure Settings where
  label_text : String
  window_type : WindowType
  icon_name : String
  icon_symbolic : Bool
  label_visible : Bool
  deriving DecidableEq, Repr

/-- Modelled from the spec: the menu-window module (the two window constructors
and `brisk_menu_window_*`) is not part of `applet.c`. A window is represented
by what the operations listed for it can change: load menu contents, apply
preference pump, set anchor position, recompute screen position, get/set
visibility. `id` is the identity of the instance (its address). -/
structure BriskMenuWindow where
  id : Nat
  variant : WindowVariant
  visible : Bool
  parent_position : Option GtkPositionType
  menus_loaded : Bool
  settings_pumped : Bool
  screen_position_updates : Nat
  deriving DecidableEq, Repr

/-- The applet instance together with the widgets it owns.

* `menu` is the `self->menu` pointer (`none` is `NULL`);
* `windows` is the table of live menu windows, newest first;
* `next_id` is the identity the next constructed window receives;
* the remaining fields are the widget properties the applet writes to
  `self->toggle`, `self->image` and `self->label`. -/
structure BriskMenuApplet where
  settings : Settings
  orient : MatePanelAppletOrient
  menu : Option Nat
  windows : List BriskMenuWindow
  next_id : Nat
  toggle_shown : Bool
  toggle_active : Bool
  style_vertical : Bool
  image_icon_name : String
  image_pixel_size : Int
  image_halign : GtkAlign
  image_margin_end : Int
  label_text : String
  label_visible : Bool
  deriving DecidableEq, Repr

/-! ## Menu windows: table operations -/

/-- Dereference a window pointer in the table of live windows. -/
def lookup_window (ws : List BriskMenuWindow) (ptr : Nat) : Option BriskMenuWindow :=
  ws.find? (fun w => w.id == ptr)

/-- Apply `f` to the window a pointer refers to. -/
def update_window (ws : List BriskMenuWindow) (ptr : Nat)
    (f : BriskMenuWindow → BriskMenuWindow) : List BriskMenuWindow :=
  ws.map (fun w => if w.id = ptr then f w else w)

/-- The window `self->menu` refers to, when there is one. -/
def menu_window (self : BriskMenuApplet) : Option BriskMenuWindow :=
  self.menu.bind (lookup_window self.windows)

/-- Modelled from the spec: a freshly constructed menu window of the given
variant (the constructors `brisk_classic_window_new` and
`brisk_dash_window_new` live outside `applet.c`). A new toplevel is not shown,
has no menus loaded, and has not been told an anchor position. -/
def brisk_menu_window_new (variant : WindowVariant) (id : Nat) : BriskMenuWindow :=
  { id := id, variant := variant, visible := false, parent_position := none,
    menus_loaded := false, settings_pumped := false, screen_position_updates := 0 }

/-- The call `gtk_widget_set_visible(self->menu, vis)`. A `NULL` widget is
rejected by the toolkit's argument guard and nothing happens. The binding
installed in `brisk_menu_applet_create_window` copies a changed `visible`
property to the toggle's `active` property. -/
def gtk_widget_set_visible_menu (self : BriskMenuApplet) (vis : Bool) : BriskMenuApplet :=
  match menu_window self with
  | none => self
  | some w =>
    if w.visible = vis then self
    else
      { self with
        windows := update_window self.windows w.id (fun m => { m with visible := vis })
        toggle_active := vis }

/-- The call `gtk_widget_hide(self->menu)`. -/
def gtk_widget_hide_menu (self : BriskMenuApplet) : BriskMenuApplet :=
  gtk_widget_set_visible_menu self false

/-- The statement `g_clear_pointer(&self->menu, gtk_widget_destroy)`: when the
pointer is set it is reset to `NULL` and the window it referred to is
destroyed. -/
def g_clear_pointer_menu (self : BriskMenuApplet) : BriskMenuApplet :=
  match self.menu with
  | none => self
  | some ptr =>
    { self with menu := none, windows := self.windows.filter (fun w => w.id != ptr) }

/-- Modelled from the spec: `brisk_menu_window_load_menus` on `self->menu`
("load menu contents"). -/
def brisk_menu_window_load_menus (self : BriskMenuApplet) : BriskMenuApplet :=
  match self.menu with
  | none => self
  | some ptr =>
    { self with windows := update_window self.windows ptr (fun m => { m with menus_loaded := true }) }

/-- Modelled from the spec: `brisk_menu_window_pump_settings` on `self->menu`
("apply preference pump"). -/
def brisk_menu_window_pump_settings (self : BriskMenuApplet) : BriskMenuApplet :=
  match self.menu with
  | none => self
  | some ptr =>
    { self with windows := update_window self.windows ptr (fun m => { m with settings_pumped := true }) }

/-- Modelled from the spec: `brisk_menu_window_set_parent_position` on
`self->menu` ("set anchor position"): the window remembers the position it was
last given. -/
def brisk_menu_window_set_parent_position (self : BriskMenuApplet)
    (position : GtkPositionType) : BriskMenuApplet :=
  match self.menu with
  | none => self
  | some ptr =>
    { self with
      windows := update_window self.windows ptr (fun m => { m with parent_position := some position }) }

/-- Modelled from the spec: `brisk_menu_window_update_screen_position` on
`self->menu` ("recompute screen position"). -/
def brisk_menu_window_update_screen_position (self : BriskMenuApplet) : BriskMenuApplet :=
  match self.menu with
  | none => self
  | some ptr =>
    { self with
      windows := update_window self.windows ptr
        (fun m => { m with screen_position_updates := m.screen_position_updates + 1 }) }

/-! ## The applet's functions -/

/-- The table `icon_sizes`. -/
def icon_sizes : List Int := [16, 24, 32, 48, 64, 96, 128, 256]

/-- The cast `(gint)size` of a `guint`: the 32-bit pattern read as a signed
integer. -/
def guint_to_gint (size : Nat) : Int :=
  if size % 2 ^ 32 < 2 ^ 31 then (size % 2 ^ 32 : Nat) else ((size % 2 ^ 32 : Nat) : Int) - 2 ^ 32

/-- The `for` loop of `brisk_menu_applet_change_size` over the remaining
entries of the table: stop at the first entry above `limit`, otherwise record
the entry and go on. -/
def change_size_loop (limit : Int) : List Int → Int → Int
  | [], final_size => final_size
  | x :: rest, final_size =>
    if x > limit then final_size else change_size_loop limit rest x

/-- The value of `final_size` when the loop of `brisk_menu_applet_change_size`
ends. The bound `(gint)size - 2` is computed without wrap-around: the
subtraction leaves the `gint` range only for the two casts below `-2^31 + 2`,
where the source's behaviour is undefined. -/
def change_size_final (size : Nat) : Int :=
  change_size_loop (guint_to_gint size - 2) icon_sizes (icon_sizes.headD 0)

/-- Source function `brisk_menu_applet_change_size`. -/
def brisk_menu_applet_change_size (self : BriskMenuApplet) (size : Nat) : BriskMenuApplet :=
  { self with image_pixel_size := change_size_final size }

/-- Source function `convert_mate_position`. -/
def convert_mate_position : MatePanelAppletOrient → GtkPositionType
  | .MATE_PANEL_APPLET_ORIENT_LEFT => .GTK_POS_RIGHT
  | .MATE_PANEL_APPLET_ORIENT_RIGHT => .GTK_POS_LEFT
  | .MATE_PANEL_APPLET_ORIENT_DOWN => .GTK_POS_TOP
  | .MATE_PANEL_APPLET_ORIENT_UP => .GTK_POS_BOTTOM
  | .unrecognised _ => .GTK_POS_BOTTOM

/-- Source function `brisk_menu_applet_adapt_layout`. -/
def brisk_menu_applet_adapt_layout (self : BriskMenuApplet) : BriskMenuApplet :=
  match self.orient with
  | .MATE_PANEL_APPLET_ORIENT_LEFT | .MATE_PANEL_APPLET_ORIENT_RIGHT =>
    { self with
      label_visible := false
      image_halign := .GTK_ALIGN_CENTER
      style_vertical := true
      image_margin_end := 0 }
  | _ =>
    { self with
      label_visible := self.settings.label_visible
      image_halign := .GTK_ALIGN_START
      style_vertical := false
      image_margin_end := 4 }

/-- Source function `brisk_menu_applet_automatic_window_type`: which
constructor is called for the current orientation. -/
def brisk_menu_applet_automatic_window_type (self : BriskMenuApplet) : WindowVariant :=
  match self.orient with
  | .MATE_PANEL_APPLET_ORIENT_LEFT | .MATE_PANEL_APPLET_ORIENT_RIGHT => .dash
  | _ => .classic

/-- Source function `brisk_menu_applet_change_menu_orient`. -/
def brisk_menu_applet_change_menu_orient (self : BriskMenuApplet) : BriskMenuApplet :=
  let position := convert_mate_position self.orient
  brisk_menu_window_set_parent_position self position

/-- The `switch (window_type)` of `brisk_menu_applet_create_window`: which
constructor is called. -/
def create_window_variant (self : BriskMenuApplet) : WindowVariant :=
  match self.settings.window_type with
  | .WINDOW_TYPE_DASH => .dash
  | .WINDOW_TYPE_AUTOMATIC => brisk_menu_applet_automatic_window_type self
  | _ => .classic

/-- Source function `brisk_menu_applet_create_window`. The new window is
entered at the head of the table of live windows and `self->menu` is set to
it; a previous value of `self->menu` is overwritten, not destroyed. -/
def brisk_menu_applet_create_window (self : BriskMenuApplet) : BriskMenuApplet :=
  let self := { self with toggle_shown := true }
  let menu := brisk_menu_window_new (create_window_variant self) self.next_id
  let self :=
    { self with menu := some menu.id, windows := menu :: self.windows, next_id := self.next_id + 1 }
  let self := brisk_menu_window_load_menus self
  let self := brisk_menu_window_pump_settings self
  brisk_menu_applet_change_menu_orient self

/-- The value `GDK_EVENT_PROPAGATE`. -/
def GDK_EVENT_PROPAGATE : Bool := false

/-- The value `GDK_EVENT_STOP`. -/
def GDK_EVENT_STOP : Bool := true

/-- Source function `button_press_cb`, with `button` the field
`event->button.button`. The result is the new state and the returned
`gboolean`. With the primary button the handler reads and drives the window
behind `self->menu`; when that pointer refers to no live window the outcome is
not determined by this file and the model gives `none`. -/
def button_press_cb (self : BriskMenuApplet) (button : Nat) : Option (BriskMenuApplet × Bool) :=
  if button ≠ 1 then some (self, GDK_EVENT_PROPAGATE)
  else
    match menu_window self with
    | none => none
    | some w =>
      let vis := !w.visible
      let self := if vis then brisk_menu_window_update_screen_position self else self
      let self := gtk_widget_set_visible_menu self vis
      some (self, GDK_EVENT_STOP)

/-- Source function `brisk_menu_applet_update_icon`. -/
def brisk_menu_applet_update_icon (self : BriskMenuApplet) : BriskMenuApplet :=
  let icon_name := self.settings.icon_name
  let icon_name := if icon_name = "" then "start-here" else icon_name
  let icon_name := if self.settings.icon_symbolic then icon_name ++ "-symbolic" else icon_name
  { self with image_icon_name := icon_name }

/-- The message catalogue lookup written `_( ... )` in the source; the
untranslated text is used. -/
def gettext (msgid : String) : String := msgid

/-- Source function `brisk_menu_applet_settings_changed`. -/
def brisk_menu_applet_settings_changed (self : BriskMenuApplet) (key : String) : BriskMenuApplet :=
  if key = "label-text" then
    let value := self.settings.label_text
    if value = "" then { self with label_text := gettext "Menu" }
    else { self with label_text := value }
  else if key = "window-type" then
    let self := gtk_widget_hide_menu self
    let self := g_clear_pointer_menu self
    brisk_menu_applet_create_window self
  else if key = "icon-name" then brisk_menu_applet_update_icon self
  else if key = "icon-symbolic" then brisk_menu_applet_update_icon self
  else self

/-- Source function `brisk_menu_applet_change_orient`. -/
def brisk_menu_applet_change_orient (self : BriskMenuApplet)
    (orient : MatePanelAppletOrient) : BriskMenuApplet :=
  let self := { self with orient := orient }
  let self := brisk_menu_applet_adapt_layout self
  match self.menu with
  | none => brisk_menu_applet_create_window self
  | some _ => brisk_menu_applet_change_menu_orient self

/-- Source function `brisk_menu_applet_init`, for the preference values found
in the store. No menu window exists yet. `orient0` is the content of the
`orient` field of the fresh instance, which the function does not assign. -/
def brisk_menu_applet_init (settings : Settings) (orient0 : MatePanelAppletOrient) :
    BriskMenuApplet :=
  let self : BriskMenuApplet :=
    { settings := settings
      orient := orient0
      menu := none
      windows := []
      next_id := 0
      toggle_shown := false
      toggle_active := false
      style_vertical := false
      image_icon_name := "start-here-symbolic"
      image_pixel_size := -1
      image_halign := .GTK_ALIGN_START
      image_margin_end := 4
      label_text := ""
      label_visible := settings.label_visible }
  let self := brisk_menu_applet_settings_changed self "label-text"
  brisk_menu_applet_settings_changed self "icon-name"

/-! ## Events -/

/-- A change of one preference in the store. -/
inductive PrefChange where
  | label_text (value : String)
  | window_type (value : WindowType)
  | icon_name (value : String)
  | icon_symbolic (value : Bool)
  | label_visible (value : Bool)
  deriving DecidableEq, Repr

/-- The store takes the new value and notifies the applet: the four keys
connected in `brisk_menu_applet_init_settings` run
`brisk_menu_applet_settings_changed`, and `label-visible` is bound to the
label's `visible` property. -/
def preference_changed (self : BriskMenuApplet) : PrefChange → BriskMenuApplet
  | .label_text v =>
    brisk_menu_applet_settings_changed
      { self with settings := { self.settings with label_text := v } } "label-text"
  | .window_type v =>
    brisk_menu_applet_settings_changed
      { self with settings := { self.settings with window_type := v } } "window-type"
  | .icon_name v =>
    brisk_menu_applet_settings_changed
      { self with settings := { self.settings with icon_name := v } } "icon-name"
  | .icon_symbolic v =>
    brisk_menu_applet_settings_changed
      { self with settings := { self.settings with icon_symbolic := v } } "icon-symbolic"
  | .label_visible v =>
    { self with settings := { self.settings with label_visible := v }, label_visible := v }

/-- The events the ready applet reacts to. -/
inductive Event where
  | orientation_change (orient : MatePanelAppletOrient)
  | size_change (size : Nat)
  | preference_change (change : PrefChange)
  | toggle_click (button : Nat)
  deriving DecidableEq, Repr

/-- One event handled by the applet. -/
def step (self : BriskMenuApplet) : Event → Option BriskMenuApplet
  | .orientation_change orient => some (brisk_menu_applet_change_orient self orient)
  | .size_change size => some (brisk_menu_applet_change_size self size)
  | .preference_change change => some (preference_changed self change)
  | .toggle_click button => (button_press_cb self button).map Prod.fst

/-- A sequence of events handled one after the other. -/
def run (self : BriskMenuApplet) : List Event → Option BriskMenuApplet
  | [] => some self
  | e :: es => (step self e).bind (fun next => run next es)

/-- The states the applet can be in: those obtained from a fresh instance by a
sequence of events. -/
def Reachable (s : BriskMenuApplet) : Prop :=
  ∃ settings orient0 events, run (brisk_menu_applet_init settings orient0) events = some s

/-! ## Predicates on applet states -/

/-- The applet owns its menu windows: either `self->menu` is `NULL` and no
window is live, or exactly one window is live and `self->menu` refers to it. -/
def Owned (s : BriskMenuApplet) : Prop :=
  (s.menu = none ∧ s.windows = []) ∨ ∃ w, s.menu = some w.id ∧ s.windows = [w]

/-- Every live window was last told the anchor position of the stored
orientation. -/
def Anchored (s : BriskMenuApplet) : Prop :=
  ∀ w ∈ s.windows, w.parent_position = some (convert_mate_position s.orient)

/-- Identities of live windows have been handed out already. -/
def Allocated (s : BriskMenuApplet) : Prop :=
  ∀ w ∈ s.windows, w.id < s.next_id

/-- The invariant of the ready applet. -/
def Inv (s : BriskMenuApplet) : Prop :=
  Owned s ∧ Anchored s ∧ Allocated s

/-- The variant agrees with the orientation: with the automatic preference, an
existing menu window is the dash variant for the left and right orientations
and the classic variant for every other orientation. -/
def AutomaticVariantMatches (s : BriskMenuApplet) : Prop :=
  s.settings.window_type = .WINDOW_TYPE_AUTOMATIC →
    ∀ w, menu_window s = some w →
      ((s.orient = .MATE_PANEL_APPLET_ORIENT_LEFT ∨
          s.orient = .MATE_PANEL_APPLET_ORIENT_RIGHT) → w.variant = .dash) ∧
      (s.orient ≠ .MATE_PANEL_APPLET_ORIENT_LEFT →
        s.orient ≠ .MATE_PANEL_APPLET_ORIENT_RIGHT → w.variant = .classic)

/-- An event that cannot leave a window of the wrong variant behind: every
event but an orientation change, and an orientation change that finds no menu
window, or finds a preference other than automatic, or moves between
orientations for which the automatic choice is the same. -/
def keeps_variant_choice (s : BriskMenuApplet) : Event → Prop
  | .orientation_change orient =>
    s.menu = none ∨ s.settings.window_type ≠ .WINDOW_TYPE_AUTOMATIC ∨
      brisk_menu_applet_automatic_window_type { s with orient := orient } =
        brisk_menu_applet_automatic_window_type s
  | _ => True

/-- Every event of the sequence, handled in turn from `s`, satisfies
`keeps_variant_choice` in the state it arrives in. -/
def variant_stable : BriskMenuApplet → List Event → Prop
  | _, [] => True
  | s, e :: es => keeps_variant_choice s e ∧ ∀ next, step s e = some next → variant_stable next es

/-! ## Concrete applets, used to instantiate the theorems -/

/-- Preference values with the automatic window type and no custom icon. -/
def sample_settings : Settings :=
  { label_text := "", window_type := .WINDOW_TYPE_AUTOMATIC, icon_name := "",
    icon_symbolic := false, label_visible := true }

/-- A fresh applet with `sample_settings`. -/
def sample_applet : BriskMenuApplet :=
  brisk_menu_applet_init sample_settings .MATE_PANEL_APPLET_ORIENT_UP

/-- The sample applet after the panel host has reported the up orientation:
it has a menu window. -/
def sample_ready : BriskMenuApplet :=
  brisk_menu_applet_change_orient sample_applet .MATE_PANEL_APPLET_ORIENT_UP

/-- The sample applet on a bottom panel (up orientation) that is then moved to
a vertical panel (left orientation). -/
def sample_moved : BriskMenuApplet :=
  brisk_menu_applet_change_orient sample_ready .MATE_PANEL_APPLET_ORIENT_LEFT

/-! ## Facts about the window table -/

theorem lookup_update_window (ws : List BriskMenuWindow) (ptr : Nat)
    (f : BriskMenuWindow → BriskMenuWindow) (hf : ∀ m, (f m).id = m.id) :
    lookup_window (update_window ws ptr f) ptr = (lookup_window ws ptr).map f := by
  induction ws with
  | nil => rfl
  | cons w rest ih =>
    simp only [lookup_window, update_window, List.map_cons, List.find?_cons] at ih ⊢
    by_cases hw : w.id = ptr
    · simp [hw, hf]
    · have hb : (w.id == ptr) = false := by simpa using hw
      simp only [hw, if_false, hb]
      exact ih

theorem lookup_window_id {ws : List BriskMenuWindow} {ptr : Nat} {w : BriskMenuWindow}
    (h : lookup_window ws ptr = some w) : w.id = ptr := by
  unfold lookup_window at h
  have := List.find?_some h
  simpa using this

/-! ## Icon size (C1) -/

/-- C1: for every panel size below 2^31 the icon pixel size set by
`brisk_menu_applet_change_size` is an entry of the breakpoint table; when some
entry is at most `size - 2` it is the largest such entry, and when none is it
is 16. In particular 18 gives 16, 50 gives 48, 1 gives 16 and 258 gives 256. -/
theorem change_size_largest_breakpoint (self : BriskMenuApplet) (size : Nat)
    (h : size < 2 ^ 31) :
    (brisk_menu_applet_change_size self size).image_pixel_size ∈ icon_sizes ∧
    ((∃ b ∈ icon_sizes, b ≤ (size : Int) - 2) →
      (brisk_menu_applet_change_size self size).image_pixel_size ≤ (size : Int) - 2 ∧
      ∀ b ∈ icon_sizes, b ≤ (size : Int) - 2 →
        b ≤ (brisk_menu_applet_change_size self size).image_pixel_size) ∧
    ((¬ ∃ b ∈ icon_sizes, b ≤ (size : Int) - 2) →
      (brisk_menu_applet_change_size self size).image_pixel_size = 16) ∧
    (brisk_menu_applet_change_size self 18).image_pixel_size = 16 ∧
    (brisk_menu_applet_change_size self 50).image_pixel_size = 48 ∧
    (brisk_menu_applet_change_size self 1).image_pixel_size = 16 ∧
    (brisk_menu_applet_change_size self 258).image_pixel_size = 256 := by
  have hmod : size % 2 ^ 32 = size := Nat.mod_eq_of_lt (by omega)
  have hlt : size % 2 ^ 32 < 2 ^ 31 := by omega
  have hcast : guint_to_gint size = (size : Int) := by
    unfold guint_to_gint
    rw [if_pos hlt, hmod]
  refine ⟨?_, ?_, ?_, rfl, rfl, rfl, rfl⟩
  · simp only [brisk_menu_applet_change_size, change_size_final, hcast, icon_sizes,
      change_size_loop, List.headD]
    split_ifs <;> simp
  · simp only [brisk_menu_applet_change_size, change_size_final, hcast, icon_sizes,
      change_size_loop, List.headD]
    intro hex
    simp only [List.mem_cons, List.mem_singleton, List.not_mem_nil, or_false,
      exists_eq_or_imp, exists_eq_left, forall_eq_or_imp, forall_eq] at hex ⊢
    split_ifs <;> omega
  · simp only [brisk_menu_applet_change_size, change_size_final, hcast, icon_sizes,
      change_size_loop, List.headD]
    intro hex
    have h16 : ¬ ((16 : Int) ≤ (size : Int) - 2) := fun h16 => hex ⟨16, by simp, h16⟩
    have hgt : (16 : Int) > (size : Int) - 2 := by omega
    rw [if_pos hgt]

/-- The icon size theorem applied to the sample applet at panel size 50. -/
theorem change_size_largest_breakpoint_witness :
    (50 : Nat) < 2 ^ 31 ∧
    (brisk_menu_applet_change_size sample_applet 50).image_pixel_size ∈ icon_sizes ∧
    (brisk_menu_applet_change_size sample_applet 50).image_pixel_size = 48 :=
  ⟨by decide,
   (change_size_largest_breakpoint sample_applet 50 (by decide)).1,
   (change_size_largest_breakpoint sample_applet 50 (by decide)).2.2.2.2.1⟩

/-! ## Window variant (C2) -/

/-- What `brisk_menu_applet_create_window` leaves behind: `self->menu` refers to
a window with the fresh identity, of the variant picked by the `switch`, told
the anchor position of the stored orientation. -/
theorem menu_window_create_window (self : BriskMenuApplet) :
    menu_window (brisk_menu_applet_create_window self) =
      some { brisk_menu_window_new (create_window_variant self) self.next_id with
             menus_loaded := true
             settings_pumped := true
             parent_position := some (convert_mate_position self.orient) } := by
  simp [menu_window, brisk_menu_applet_create_window, brisk_menu_applet_change_menu_orient,
    brisk_menu_window_set_parent_position, brisk_menu_window_pump_settings,
    brisk_menu_window_load_menus, update_window, lookup_window, brisk_menu_window_new,
    create_window_variant, brisk_menu_applet_automatic_window_type]

/-- C2: for every applet state, the window that
`brisk_menu_applet_create_window` constructs and stores in `self->menu` is
classic when the preference is classic, dash when it is dash, and with the
automatic preference dash for the left and right orientations and classic for
every other orientation. -/
theorem create_window_variant_by_preference (self : BriskMenuApplet) :
    ∃ w, menu_window (brisk_menu_applet_create_window self) = some w ∧
      w.id = self.next_id ∧
      (self.settings.window_type = .WINDOW_TYPE_CLASSIC → w.variant = .classic) ∧
      (self.settings.window_type = .WINDOW_TYPE_DASH → w.variant = .dash) ∧
      (self.settings.window_type = .WINDOW_TYPE_AUTOMATIC →
        (self.orient = .MATE_PANEL_APPLET_ORIENT_LEFT ∨
          self.orient = .MATE_PANEL_APPLET_ORIENT_RIGHT → w.variant = .dash) ∧
        (self.orient ≠ .MATE_PANEL_APPLET_ORIENT_LEFT →
          self.orient ≠ .MATE_PANEL_APPLET_ORIENT_RIGHT → w.variant = .classic)) := by
  refine ⟨_, menu_window_create_window self, rfl, ?_, ?_, ?_⟩
  · intro h
    simp [brisk_menu_window_new, create_window_variant, h]
  · intro h
    simp [brisk_menu_window_new, create_window_variant, h]
  · intro h
    refine ⟨?_, ?_⟩
    · rintro (ho | ho) <;>
        simp [brisk_menu_window_new, create_window_variant, h,
          brisk_menu_applet_automatic_window_type, ho]
    · intro hl hr
      cases ho : self.orient <;>
        simp_all [brisk_menu_window_new, create_window_variant,
          brisk_menu_applet_automatic_window_type]

/-! ## Icon name (C3) -/

/-- C3: for every applet state, icon name `n` and symbolic flag `b` in the
store, the icon name `brisk_menu_applet_update_icon` gives the image is
`base ++ suffix` with `base` equal to "start-here" for the empty `n` and to `n`
otherwise, and `suffix` equal to "-symbolic" when `b` holds and empty
otherwise; the three listed examples are instances. -/
theorem update_icon_name (self : BriskMenuApplet) (n : String) (b : Bool) :
    (brisk_menu_applet_update_icon
        { self with settings := { self.settings with icon_name := n, icon_symbolic := b } }
      ).image_icon_name
      = (if n = "" then "start-here" else n) ++ (if b = true then "-symbolic" else "") ∧
    (brisk_menu_applet_update_icon
        { self with settings := { self.settings with icon_name := "", icon_symbolic := false } }
      ).image_icon_name = "start-here" ∧
    (brisk_menu_applet_update_icon
        { self with settings := { self.settings with icon_name := "", icon_symbolic := true } }
      ).image_icon_name = "start-here-symbolic" ∧
    (brisk_menu_applet_update_icon
        { self with settings := { self.settings with icon_name := "custom", icon_symbolic := true } }
      ).image_icon_name = "custom-symbolic" := by
  refine ⟨?_, ?_, ?_, ?_⟩
  · cases b <;> simp [brisk_menu_applet_update_icon]
  · simp [brisk_menu_applet_update_icon]
  · simp [brisk_menu_applet_update_icon]
  · simp [brisk_menu_applet_update_icon]

/-! ## Anchor position (C4, C5) -/

/-- C4: `convert_mate_position` sends the left orientation to the right anchor
position and the right orientation to the left anchor position. -/
theorem convert_mate_position_vertical :
    convert_mate_position .MATE_PANEL_APPLET_ORIENT_LEFT = .GTK_POS_RIGHT ∧
    convert_mate_position .MATE_PANEL_APPLET_ORIENT_RIGHT = .GTK_POS_LEFT :=
  ⟨rfl, rfl⟩

/-- C5 as stated fails: the orientation `MATE_PANEL_APPLET_ORIENT_DOWN` is
neither left nor right and `convert_mate_position` does not send it to the
bottom anchor position. -/
theorem convert_mate_position_not_always_bottom :
    ¬ (∀ orient : MatePanelAppletOrient,
        orient ≠ .MATE_PANEL_APPLET_ORIENT_LEFT →
        orient ≠ .MATE_PANEL_APPLET_ORIENT_RIGHT →
        convert_mate_position orient = .GTK_POS_BOTTOM) := by
  intro h
  have hdown := h .MATE_PANEL_APPLET_ORIENT_DOWN (by decide) (by decide)
  exact absurd hdown (by decide)

/-- C5, amended: every orientation that is none of left, right and down (the
up orientation and any unrecognised value) is sent to the bottom anchor
position, and the down orientation is sent to the top anchor position. -/
theorem convert_mate_position_horizontal (orient : MatePanelAppletOrient)
    (hl : orient ≠ .MATE_PANEL_APPLET_ORIENT_LEFT)
    (hr : orient ≠ .MATE_PANEL_APPLET_ORIENT_RIGHT) :
    (orient ≠ .MATE_PANEL_APPLET_ORIENT_DOWN →
      convert_mate_position orient = .GTK_POS_BOTTOM) ∧
    (orient = .MATE_PANEL_APPLET_ORIENT_DOWN →
      convert_mate_position orient = .GTK_POS_TOP) := by
  cases orient <;> simp_all [convert_mate_position]

/-- The amended anchor theorem applied to the up orientation. -/
theorem convert_mate_position_horizontal_witness :
    convert_mate_position .MATE_PANEL_APPLET_ORIENT_UP = .GTK_POS_BOTTOM :=
  (convert_mate_position_horizontal .MATE_PANEL_APPLET_ORIENT_UP (by decide) (by decide)).1
    (by decide)

/-! ## Layout (C6) -/

/-- C6: for every applet state and every value `p` of the `label-visible`
preference, after `brisk_menu_applet_adapt_layout` the label is hidden when the
orientation is left or right, and for every other orientation its visibility
is `p`. -/
theorem adapt_layout_label_visible (self : BriskMenuApplet) (p : Bool) :
    ((self.orient = .MATE_PANEL_APPLET_ORIENT_LEFT ∨
        self.orient = .MATE_PANEL_APPLET_ORIENT_RIGHT) →
      (brisk_menu_applet_adapt_layout
        { self with settings := { self.settings with label_visible := p } }).label_visible
        = false) ∧
    (self.orient ≠ .MATE_PANEL_APPLET_ORIENT_LEFT →
      self.orient ≠ .MATE_PANEL_APPLET_ORIENT_RIGHT →
      (brisk_menu_applet_adapt_layout
        { self with settings := { self.settings with label_visible := p } }).label_visible
        = p) := by
  refine ⟨?_, ?_⟩
  · rintro (ho | ho) <;> simp [brisk_menu_applet_adapt_layout, ho]
  · intro hl hr
    cases ho : self.orient <;> simp_all [brisk_menu_applet_adapt_layout]

/-! ## Toggle click (C7) -/

theorem menu_window_eq_some {self : BriskMenuApplet} {w : BriskMenuWindow}
    (h : menu_window self = some w) :
    self.menu = some w.id ∧ lookup_window self.windows w.id = some w := by
  unfold menu_window at h
  cases hm : self.menu with
  | none => simp [hm] at h
  | some ptr =>
    simp only [hm, Option.bind_some] at h
    have hid := lookup_window_id h
    subst hid
    exact ⟨rfl, h⟩

/-- Updating the window behind `self->menu` with an identity-preserving `f`
shows as `f` applied to the window `self->menu` refers to. -/
theorem menu_window_update (self : BriskMenuApplet) (w : BriskMenuWindow)
    (f : BriskMenuWindow → BriskMenuWindow) (hf : ∀ m, (f m).id = m.id)
    (h : menu_window self = some w) :
    menu_window { self with windows := update_window self.windows w.id f } = some (f w) := by
  obtain ⟨hm, hl⟩ := menu_window_eq_some h
  simp [menu_window, hm, lookup_update_window _ _ _ hf, hl]

theorem menu_window_update_screen_position (self : BriskMenuApplet) (w : BriskMenuWindow)
    (h : menu_window self = some w) :
    menu_window (brisk_menu_window_update_screen_position self) =
      some { w with screen_position_updates := w.screen_position_updates + 1 } := by
  obtain ⟨hm, _⟩ := menu_window_eq_some h
  have := menu_window_update self w
    (fun m => { m with screen_position_updates := m.screen_position_updates + 1 })
    (fun _ => rfl) h
  simpa [brisk_menu_window_update_screen_position, hm, menu_window] using this

theorem menu_window_set_visible (self : BriskMenuApplet) (w : BriskMenuWindow) (vis : Bool)
    (h : menu_window self = some w) :
    menu_window (gtk_widget_set_visible_menu self vis) = some { w with visible := vis } := by
  obtain ⟨hm, _⟩ := menu_window_eq_some h
  unfold gtk_widget_set_visible_menu
  rw [h]
  by_cases hv : w.visible = vis
  · simp only [hv, if_true]
    rw [h]
    cases w
    simp_all
  · simp only [hv, if_false]
    have := menu_window_update self w (fun m => { m with visible := vis }) (fun _ => rfl) h
    simpa [menu_window, hm] using this

/-- C7: for every applet state whose `self->menu` refers to a window `w` and
every button number `b`, `button_press_cb` returns; with `b = 1` the window
ends with visibility `!w.visible` and the event is stopped; with `b ≠ 1` the
applet state is unchanged (so the visibility stays `w.visible`) and the event
is propagated. -/
theorem button_press_cb_toggles (self : BriskMenuApplet) (w : BriskMenuWindow) (b : Nat)
    (hw : menu_window self = some w) :
    ∃ next ret, button_press_cb self b = some (next, ret) ∧
      (b = 1 → ret = GDK_EVENT_STOP ∧
        ∃ m, menu_window next = some m ∧ m.id = w.id ∧ m.visible = !w.visible) ∧
      (b ≠ 1 → ret = GDK_EVENT_PROPAGATE ∧ next = self ∧ menu_window next = some w) := by
  by_cases hb : b = 1
  · subst hb
    cases hv : w.visible
    · have h1 := menu_window_update_screen_position self w hw
      have h2 := menu_window_set_visible _ _ true h1
      refine ⟨_, _, by simp [button_press_cb, hw, hv]; exact ⟨rfl, rfl⟩, ?_, by simp⟩
      intro _
      exact ⟨rfl, _, h2, rfl, rfl⟩
    · have h2 := menu_window_set_visible self w false hw
      refine ⟨_, _, by simp [button_press_cb, hw, hv]; exact ⟨rfl, rfl⟩, ?_, by simp⟩
      intro _
      exact ⟨rfl, _, h2, rfl, rfl⟩
  · refine ⟨self, GDK_EVENT_PROPAGATE, by simp [button_press_cb, hb], ?_, ?_⟩
    · intro h1
      exact absurd h1 hb
    · intro _
      exact ⟨rfl, rfl, hw⟩

/-- A primary click on the ready sample applet. -/
theorem button_press_cb_toggles_witness :
    ∃ next ret, button_press_cb sample_ready 1 = some (next, ret) ∧
      (1 = 1 → ret = GDK_EVENT_STOP ∧
        ∃ m, menu_window next = some m ∧ m.id = 0 ∧ m.visible = !false) ∧
      (1 ≠ 1 → ret = GDK_EVENT_PROPAGATE ∧ next = sample_ready ∧
        menu_window next =
          some { id := 0, variant := .classic, visible := false,
                 parent_position := some .GTK_POS_BOTTOM, menus_loaded := true,
                 settings_pumped := true, screen_position_updates := 0 }) :=
  button_press_cb_toggles sample_ready
    { id := 0, variant := .classic, visible := false,
      parent_position := some .GTK_POS_BOTTOM, menus_loaded := true,
      settings_pumped := true, screen_position_updates := 0 } 1 (by decide)

/-! ## Ownership of the menu window -/

theorem settings_changed_window_type (self : BriskMenuApplet) :
    brisk_menu_applet_settings_changed self "window-type" =
      brisk_menu_applet_create_window (g_clear_pointer_menu (gtk_widget_hide_menu self)) := by
  simp [brisk_menu_applet_settings_changed]

theorem settings_changed_windows_of_ne (self : BriskMenuApplet) (key : String)
    (hk : key ≠ "window-type") :
    (brisk_menu_applet_settings_changed self key).windows = self.windows ∧
    (brisk_menu_applet_settings_changed self key).menu = self.menu ∧
    (brisk_menu_applet_settings_changed self key).orient = self.orient ∧
    (brisk_menu_applet_settings_changed self key).next_id = self.next_id ∧
    (brisk_menu_applet_settings_changed self key).settings = self.settings := by
  unfold brisk_menu_applet_settings_changed
  simp only [hk, if_false]
  split_ifs <;> simp [brisk_menu_applet_update_icon]

theorem Inv_init (settings : Settings) (orient0 : MatePanelAppletOrient) :
    Inv (brisk_menu_applet_init settings orient0) := by
  have h1 := settings_changed_windows_of_ne
  simp only [Inv, Owned, Anchored, Allocated, brisk_menu_applet_init]
  rw [(h1 _ "icon-name" (by decide)).1, (h1 _ "icon-name" (by decide)).2.1,
    (h1 _ "label-text" (by decide)).1, (h1 _ "label-text" (by decide)).2.1]
  simp

theorem Inv_create_window (self : BriskMenuApplet) (hw : self.windows = []) :
    Inv (brisk_menu_applet_create_window self) := by
  simp [Inv, Owned, Anchored, Allocated, brisk_menu_applet_create_window,
    brisk_menu_applet_change_menu_orient, brisk_menu_window_set_parent_position,
    brisk_menu_window_pump_settings, brisk_menu_window_load_menus, update_window,
    brisk_menu_window_new, hw]

theorem Inv_change_orient (s : BriskMenuApplet) (orient : MatePanelAppletOrient)
    (h : Inv s) : Inv (brisk_menu_applet_change_orient s orient) := by
  obtain ⟨hown, _, hal⟩ := h
  rcases hown with ⟨hm, hw⟩ | ⟨w, hm, hw⟩
  · have hc : brisk_menu_applet_change_orient s orient =
        brisk_menu_applet_create_window
          (brisk_menu_applet_adapt_layout { s with orient := orient }) := by
      have : (brisk_menu_applet_adapt_layout { s with orient := orient }).menu = none := by
        unfold brisk_menu_applet_adapt_layout
        split <;> simpa using hm
      simp only [brisk_menu_applet_change_orient, this]
    rw [hc]
    apply Inv_create_window
    unfold brisk_menu_applet_adapt_layout
    split <;> simpa using hw
  · have hlt : w.id < s.next_id := hal w (by simp [hw])
    unfold brisk_menu_applet_change_orient brisk_menu_applet_adapt_layout
    cases orient <;>
      simp [Inv, Owned, Anchored, Allocated, hm, hw, brisk_menu_applet_change_menu_orient,
        brisk_menu_window_set_parent_position, update_window, hlt]

/-- After the hide and the clear of the window-type branch no window is live,
provided every live window was the one behind `self->menu`. -/
theorem teardown_empty (self : BriskMenuApplet) (hlen : self.windows.length ≤ 1)
    (hown : ∀ w ∈ self.windows, self.menu = some w.id) :
    (g_clear_pointer_menu (gtk_widget_hide_menu self)).windows = [] ∧
    (g_clear_pointer_menu (gtk_widget_hide_menu self)).menu = none := by
  cases hws : self.windows with
  | nil =>
    have hmw : menu_window self = none := by
      unfold menu_window
      cases self.menu <;> simp [hws, lookup_window]
    have hh : gtk_widget_hide_menu self = self := by
      simp [gtk_widget_hide_menu, gtk_widget_set_visible_menu, hmw]
    rw [hh]
    unfold g_clear_pointer_menu
    cases hm : self.menu <;> simp [hm, hws]
  | cons w rest =>
    have hrest : rest = [] := by
      rw [hws] at hlen
      cases rest with
      | nil => rfl
      | cons _ _ => simp at hlen
    subst hrest
    have hm : self.menu = some w.id := hown w (by simp [hws])
    have hmw : menu_window self = some w := by
      simp [menu_window, hm, hws, lookup_window]
    unfold gtk_widget_hide_menu gtk_widget_set_visible_menu
    rw [hmw]
    by_cases hv : w.visible = false
    · simp [hv, g_clear_pointer_menu, hm, hws]
    · simp [hv, g_clear_pointer_menu, hm, hws, update_window]

theorem Owned_windows {s : BriskMenuApplet} (h : Owned s) :
    s.windows.length ≤ 1 ∧ ∀ w ∈ s.windows, s.menu = some w.id := by
  rcases h with ⟨_, hw⟩ | ⟨w, hm, hw⟩
  · simp [hw]
  · simp [hw, hm]

theorem Inv_settings_changed (s : BriskMenuApplet) (key : String) (h : Inv s) :
    Inv (brisk_menu_applet_settings_changed s key) := by
  by_cases hk : key = "window-type"
  · subst hk
    rw [settings_changed_window_type]
    apply Inv_create_window
    exact (teardown_empty s (Owned_windows h.1).1 (Owned_windows h.1).2).1
  · obtain ⟨hw, hm, ho, hn, _⟩ := settings_changed_windows_of_ne s key hk
    simpa [Inv, Owned, Anchored, Allocated, hw, hm, ho, hn] using h

theorem Inv_preference_changed (s : BriskMenuApplet) (change : PrefChange) (h : Inv s) :
    Inv (preference_changed s change) := by
  cases change <;>
    first
    | (apply Inv_settings_changed
       simpa [Inv, Owned, Anchored, Allocated] using h)
    | simpa [preference_changed, Inv, Owned, Anchored, Allocated] using h

theorem Inv_change_size (s : BriskMenuApplet) (size : Nat) (h : Inv s) :
    Inv (brisk_menu_applet_change_size s size) := by
  simpa [brisk_menu_applet_change_size, Inv, Owned, Anchored, Allocated] using h

theorem Inv_set_visible (s : BriskMenuApplet) (vis : Bool) (h : Inv s) :
    Inv (gtk_widget_set_visible_menu s vis) := by
  obtain ⟨hown, han, hal⟩ := h
  rcases hown with ⟨hm, hw⟩ | ⟨w, hm, hw⟩
  · have hmw : menu_window s = none := by simp [menu_window, hm]
    simp only [gtk_widget_set_visible_menu, hmw]
    exact ⟨Or.inl ⟨hm, hw⟩, han, hal⟩
  · have hmw : menu_window s = some w := by simp [menu_window, hm, hw, lookup_window]
    have hp := han w (by simp [hw])
    have hlt := hal w (by simp [hw])
    simp only [gtk_widget_set_visible_menu, hmw]
    by_cases hv : w.visible = vis
    · simp only [hv, if_true]
      exact ⟨Or.inr ⟨w, hm, hw⟩, han, hal⟩
    · simp [hv, Inv, Owned, Anchored, Allocated, hm, hw, update_window, hp, hlt]

theorem Inv_update_screen_position (s : BriskMenuApplet) (h : Inv s) :
    Inv (brisk_menu_window_update_screen_position s) := by
  obtain ⟨hown, han, hal⟩ := h
  rcases hown with ⟨hm, hw⟩ | ⟨w, hm, hw⟩
  · simp only [brisk_menu_window_update_screen_position, hm]
    exact ⟨Or.inl ⟨hm, hw⟩, han, hal⟩
  · have hp := han w (by simp [hw])
    have hlt := hal w (by simp [hw])
    simp [brisk_menu_window_update_screen_position, Inv, Owned, Anchored, Allocated, hm, hw,
      update_window, hp, hlt]

theorem Inv_button_press_cb (s next : BriskMenuApplet) (b : Nat) (ret : Bool) (h : Inv s)
    (hstep : button_press_cb s b = some (next, ret)) : Inv next := by
  unfold button_press_cb at hstep
  by_cases hb : b = 1
  · subst hb
    cases hmw : menu_window s with
    | none => simp [hmw] at hstep
    | some w =>
      simp only [hmw, ne_eq, not_true_eq_false, if_false, Option.some.injEq,
        Prod.mk.injEq] at hstep
      rw [← hstep.1]
      apply Inv_set_visible
      split
      · exact Inv_update_screen_position s h
      · exact h
  · simp only [ne_eq, hb, not_false_eq_true, if_true, Option.some.injEq, Prod.mk.injEq] at hstep
    rw [← hstep.1]
    exact h

theorem Inv_step (s next : BriskMenuApplet) (e : Event) (h : Inv s)
    (hstep : step s e = some next) : Inv next := by
  cases e with
  | orientation_change orient =>
    simp only [step, Option.some.injEq] at hstep
    rw [← hstep]
    exact Inv_change_orient s orient h
  | size_change size =>
    simp only [step, Option.some.injEq] at hstep
    rw [← hstep]
    exact Inv_change_size s size h
  | preference_change change =>
    simp only [step, Option.some.injEq] at hstep
    rw [← hstep]
    exact Inv_preference_changed s change h
  | toggle_click button =>
    simp only [step] at hstep
    cases hb : button_press_cb s button with
    | none => simp [hb] at hstep
    | some res =>
      obtain ⟨mid, ret⟩ := res
      simp only [hb, Option.map_some', Option.some.injEq] at hstep
      subst hstep
      exact Inv_button_press_cb s mid button ret h hb

theorem Inv_run (events : List Event) (s next : BriskMenuApplet) (h : Inv s)
    (hrun : run s events = some next) : Inv next := by
  induction events generalizing s with
  | nil =>
    simp only [run, Option.some.injEq] at hrun
    rw [← hrun]
    exact h
  | cons e es ih =>
    simp only [run] at hrun
    cases hs : step s e with
    | none => simp [hs] at hrun
    | some mid =>
      simp only [hs, Option.bind_some] at hrun
      exact ih mid (Inv_step s mid e h hs) hrun

theorem Inv_of_Reachable {s : BriskMenuApplet} (h : Reachable s) : Inv s := by
  obtain ⟨settings, orient0, events, hrun⟩ := h
  exact Inv_run events _ s (Inv_init settings orient0) hrun

/-! ## Frame facts: what the window operations leave alone -/

theorem set_visible_frame (s : BriskMenuApplet) (vis : Bool) :
    (gtk_widget_set_visible_menu s vis).settings = s.settings ∧
    (gtk_widget_set_visible_menu s vis).orient = s.orient ∧
    (gtk_widget_set_visible_menu s vis).next_id = s.next_id ∧
    (gtk_widget_set_visible_menu s vis).menu = s.menu := by
  unfold gtk_widget_set_visible_menu
  split
  · simp
  · split_ifs <;> simp

theorem clear_pointer_frame (s : BriskMenuApplet) :
    (g_clear_pointer_menu s).settings = s.settings ∧
    (g_clear_pointer_menu s).orient = s.orient ∧
    (g_clear_pointer_menu s).next_id = s.next_id := by
  unfold g_clear_pointer_menu
  split <;> simp

theorem teardown_frame (s : BriskMenuApplet) :
    (g_clear_pointer_menu (gtk_widget_hide_menu s)).settings = s.settings ∧
    (g_clear_pointer_menu (gtk_widget_hide_menu s)).orient = s.orient ∧
    (g_clear_pointer_menu (gtk_widget_hide_menu s)).next_id = s.next_id := by
  obtain ⟨h1, h2, h3⟩ := clear_pointer_frame (gtk_widget_hide_menu s)
  obtain ⟨g1, g2, g3, _⟩ := set_visible_frame s false
  unfold gtk_widget_hide_menu at *
  exact ⟨h1.trans g1, h2.trans g2, h3.trans g3⟩

theorem update_screen_position_frame (s : BriskMenuApplet) :
    (brisk_menu_window_update_screen_position s).settings = s.settings ∧
    (brisk_menu_window_update_screen_position s).orient = s.orient ∧
    (brisk_menu_window_update_screen_position s).next_id = s.next_id ∧
    (brisk_menu_window_update_screen_position s).menu = s.menu := by
  unfold brisk_menu_window_update_screen_position
  split <;> simp_all

theorem create_window_frame (s : BriskMenuApplet) :
    (brisk_menu_applet_create_window s).settings = s.settings ∧
    (brisk_menu_applet_create_window s).orient = s.orient := by
  simp [brisk_menu_applet_create_window, brisk_menu_applet_change_menu_orient,
    brisk_menu_window_set_parent_position, brisk_menu_window_pump_settings,
    brisk_menu_window_load_menus]

theorem create_window_single (s : BriskMenuApplet) (hw : s.windows = []) :
    ∃ w, (brisk_menu_applet_create_window s).windows = [w] ∧
      (brisk_menu_applet_create_window s).menu = some w.id ∧ w.id = s.next_id := by
  refine ⟨{ brisk_menu_window_new (create_window_variant s) s.next_id with
            menus_loaded := true
            settings_pumped := true
            parent_position := some (convert_mate_position s.orient) }, ?_, ?_, rfl⟩
  · simp [brisk_menu_applet_create_window, brisk_menu_applet_change_menu_orient,
      brisk_menu_window_set_parent_position, brisk_menu_window_pump_settings,
      brisk_menu_window_load_menus, update_window, brisk_menu_window_new, hw,
      create_window_variant, brisk_menu_applet_automatic_window_type]
  · simp [brisk_menu_applet_create_window, brisk_menu_applet_change_menu_orient,
      brisk_menu_window_set_parent_position, brisk_menu_window_pump_settings,
      brisk_menu_window_load_menus, brisk_menu_window_new]

theorem adapt_layout_frame (s : BriskMenuApplet) :
    (brisk_menu_applet_adapt_layout s).settings = s.settings ∧
    (brisk_menu_applet_adapt_layout s).orient = s.orient ∧
    (brisk_menu_applet_adapt_layout s).menu = s.menu ∧
    (brisk_menu_applet_adapt_layout s).windows = s.windows ∧
    (brisk_menu_applet_adapt_layout s).next_id = s.next_id := by
  unfold brisk_menu_applet_adapt_layout
  split <;> simp

theorem change_orient_frame (s : BriskMenuApplet) (orient : MatePanelAppletOrient) :
    (brisk_menu_applet_change_orient s orient).settings = s.settings ∧
    (brisk_menu_applet_change_orient s orient).orient = orient := by
  obtain ⟨h1, h2, _⟩ := adapt_layout_frame { s with orient := orient }
  unfold brisk_menu_applet_change_orient
  simp only
  split
  · obtain ⟨g1, g2⟩ :=
      create_window_frame (brisk_menu_applet_adapt_layout { s with orient := orient })
    exact ⟨g1.trans h1, g2.trans h2⟩
  · unfold brisk_menu_applet_change_menu_orient brisk_menu_window_set_parent_position
    split <;> exact ⟨h1, h2⟩

theorem change_menu_orient_existing (t : BriskMenuApplet) (w : BriskMenuWindow)
    (h : menu_window t = some w) :
    (brisk_menu_applet_change_menu_orient t).menu = t.menu ∧
    (brisk_menu_applet_change_menu_orient t).next_id = t.next_id ∧
    menu_window (brisk_menu_applet_change_menu_orient t) =
      some { w with parent_position := some (convert_mate_position t.orient) } := by
  obtain ⟨hm, _⟩ := menu_window_eq_some h
  have hu := menu_window_update t w
    (fun m => { m with parent_position := some (convert_mate_position t.orient) })
    (fun _ => rfl) h
  have hc : brisk_menu_applet_change_menu_orient t =
      { t with
        windows := (update_window t.windows w.id
          (fun m => { m with parent_position := some (convert_mate_position t.orient) })) } := by
    simp [brisk_menu_applet_change_menu_orient, brisk_menu_window_set_parent_position, hm]
  rw [hc]
  exact ⟨rfl, rfl, hu⟩

/-- An orientation change on an applet whose `self->menu` refers to a window
keeps the pointer, allocates nothing, and only tells the window its new anchor
position. -/
theorem change_orient_existing (s : BriskMenuApplet) (orient : MatePanelAppletOrient)
    (w : BriskMenuWindow) (h : menu_window s = some w) :
    (brisk_menu_applet_change_orient s orient).menu = s.menu ∧
    (brisk_menu_applet_change_orient s orient).next_id = s.next_id ∧
    menu_window (brisk_menu_applet_change_orient s orient) =
      some { w with parent_position := some (convert_mate_position orient) } := by
  obtain ⟨hm, _⟩ := menu_window_eq_some h
  obtain ⟨_, h2, h3, h4, h5⟩ := adapt_layout_frame { s with orient := orient }
  have ht : menu_window (brisk_menu_applet_adapt_layout { s with orient := orient }) = some w := by
    unfold menu_window at h ⊢
    rw [h3, h4]
    exact h
  have hc : brisk_menu_applet_change_orient s orient =
      brisk_menu_applet_change_menu_orient
        (brisk_menu_applet_adapt_layout { s with orient := orient }) := by
    have hm2 : (brisk_menu_applet_adapt_layout { s with orient := orient }).menu = some w.id :=
      h3.trans hm
    simp only [brisk_menu_applet_change_orient, hm2]
  obtain ⟨g1, g2, g3⟩ := change_menu_orient_existing _ w ht
  rw [hc, g1, g2, g3, h2, h3, h5]
  exact ⟨rfl, rfl, rfl⟩

/-! ## One live window (C8) -/

/-- C8: from every applet state with at most one live menu window, that
window being the one behind `self->menu`, handling the key "window-type" in
`brisk_menu_applet_settings_changed` first hides the previous window, then
destroys it (no window is live and `self->menu` is `NULL` at that point), only
then constructs the next one, and ends with exactly one live window, the one
`self->menu` refers to. Every reachable state has at most one live window, and
every live window of a reachable state is the one behind `self->menu`. -/
theorem window_type_change_single_window (self : BriskMenuApplet)
    (hlen : self.windows.length ≤ 1)
    (hown : ∀ w ∈ self.windows, self.menu = some w.id) :
    (∀ w, menu_window self = some w →
      menu_window (gtk_widget_hide_menu self) = some { w with visible := false }) ∧
    (g_clear_pointer_menu (gtk_widget_hide_menu self)).windows = [] ∧
    (g_clear_pointer_menu (gtk_widget_hide_menu self)).menu = none ∧
    brisk_menu_applet_settings_changed self "window-type" =
      brisk_menu_applet_create_window (g_clear_pointer_menu (gtk_widget_hide_menu self)) ∧
    (∃ w, (brisk_menu_applet_settings_changed self "window-type").windows = [w] ∧
      (brisk_menu_applet_settings_changed self "window-type").menu = some w.id ∧
      menu_window (brisk_menu_applet_settings_changed self "window-type") = some w ∧
      w.id = self.next_id) ∧
    (∀ s, Reachable s →
      s.windows.length ≤ 1 ∧ (∀ w ∈ s.windows, s.menu = some w.id) ∧
      ∀ change, (preference_changed s (.window_type change)).windows.length = 1) := by
  have hsingle : ∀ t : BriskMenuApplet, t.windows.length ≤ 1 →
      (∀ w ∈ t.windows, t.menu = some w.id) →
      ∃ w, (brisk_menu_applet_settings_changed t "window-type").windows = [w] ∧
        (brisk_menu_applet_settings_changed t "window-type").menu = some w.id ∧
        menu_window (brisk_menu_applet_settings_changed t "window-type") = some w ∧
        w.id = t.next_id := by
    intro t htl hto
    obtain ⟨hte, _⟩ := teardown_empty t htl hto
    obtain ⟨w, h1, h2, h3⟩ := create_window_single _ hte
    rw [settings_changed_window_type]
    refine ⟨w, h1, h2, ?_, h3.trans (teardown_frame t).2.2⟩
    simp [menu_window, h1, h2, lookup_window]
  obtain ⟨hempty, hnull⟩ := teardown_empty self hlen hown
  refine ⟨?_, hempty, hnull, settings_changed_window_type self, hsingle self hlen hown, ?_⟩
  · intro w hw
    exact menu_window_set_visible self w false hw
  · intro s hs
    obtain ⟨h1, h2⟩ := Owned_windows (Inv_of_Reachable hs).1
    refine ⟨h1, h2, ?_⟩
    intro change
    obtain ⟨w, hw, _⟩ := hsingle { s with settings := { s.settings with window_type := change } }
      h1 h2
    simp only [preference_changed, hw, List.length_singleton]

/-- A window-type change handled by the ready sample applet. -/
theorem window_type_change_single_window_witness :
    sample_ready.windows.length ≤ 1 ∧
    (∀ w ∈ sample_ready.windows, sample_ready.menu = some w.id) ∧
    (g_clear_pointer_menu (gtk_widget_hide_menu sample_ready)).windows = [] ∧
    ∃ w, (brisk_menu_applet_settings_changed sample_ready "window-type").windows = [w] ∧
      (brisk_menu_applet_settings_changed sample_ready "window-type").menu = some w.id ∧
      menu_window (brisk_menu_applet_settings_changed sample_ready "window-type") = some w ∧
      w.id = sample_ready.next_id :=
  ⟨by decide, by decide,
   (window_type_change_single_window sample_ready (by decide) (by decide)).2.1,
   (window_type_change_single_window sample_ready (by decide) (by decide)).2.2.2.2.1⟩

/-! ## Anchor position of the menu window (C10) -/

theorem menu_window_of_Owned {s : BriskMenuApplet} (h : Owned s) :
    (s.menu = none ∧ s.windows = [] ∧ menu_window s = none) ∨
    ∃ w, s.menu = some w.id ∧ s.windows = [w] ∧ menu_window s = some w := by
  rcases h with ⟨hm, hw⟩ | ⟨w, hm, hw⟩
  · exact Or.inl ⟨hm, hw, by simp [menu_window, hm]⟩
  · exact Or.inr ⟨w, hm, hw, by simp [menu_window, hm, hw, lookup_window]⟩

/-- C10: in every reachable state `s`, (1) after
`brisk_menu_applet_change_orient` a menu window exists; (2) if a menu window
exists in `s`, the anchor position it was last given is
`convert_mate_position` of the stored orientation; (3) if a menu window exists
in `s`, an orientation change keeps `self->menu` pointing at the same instance,
constructs no window, and leaves that instance as the only live window. The
reachable states here are those of all events, which include the states
reached by orientation-change, window-type-change and toggle-click events. -/
theorem menu_anchor_follows_orientation (s : BriskMenuApplet) (hs : Reachable s) :
    (∀ orient, ∃ w, menu_window (brisk_menu_applet_change_orient s orient) = some w) ∧
    (∀ w, menu_window s = some w →
      w.parent_position = some (convert_mate_position s.orient)) ∧
    (∀ orient w, menu_window s = some w →
      (brisk_menu_applet_change_orient s orient).menu = s.menu ∧
      (brisk_menu_applet_change_orient s orient).next_id = s.next_id ∧
      ∃ m, menu_window (brisk_menu_applet_change_orient s orient) = some m ∧
        (brisk_menu_applet_change_orient s orient).windows = [m] ∧
        m.id = w.id ∧ m.variant = w.variant) := by
  have hinv := Inv_of_Reachable hs
  refine ⟨?_, ?_, ?_⟩
  · intro orient
    rcases menu_window_of_Owned (Inv_change_orient s orient hinv).1 with
      ⟨hnull, _, _⟩ | ⟨w, _, _, hw⟩
    · exact absurd hnull (by
        rcases menu_window_of_Owned hinv.1 with ⟨hm, _, _⟩ | ⟨w0, _, _, hw0⟩
        · have h3 := (adapt_layout_frame { s with orient := orient }).2.2.1
          have hm2 : (brisk_menu_applet_adapt_layout { s with orient := orient }).menu = none :=
            h3.trans hm
          have hc : brisk_menu_applet_change_orient s orient =
              brisk_menu_applet_create_window
                (brisk_menu_applet_adapt_layout { s with orient := orient }) := by
            simp only [brisk_menu_applet_change_orient, hm2]
          rw [hc]
          simp [brisk_menu_applet_create_window, brisk_menu_applet_change_menu_orient,
            brisk_menu_window_set_parent_position, brisk_menu_window_pump_settings,
            brisk_menu_window_load_menus]
        · rw [(change_orient_existing s orient w0 hw0).1]
          obtain ⟨hm0, _⟩ := menu_window_eq_some hw0
          simp [hm0])
    · exact ⟨w, hw⟩
  · intro w hw
    rcases menu_window_of_Owned hinv.1 with ⟨_, _, hnone⟩ | ⟨w0, _, hws, hw0⟩
    · rw [hnone] at hw
      cases hw
    · have hww : w0 = w := Option.some.inj (hw0.symm.trans hw)
      rw [← hww]
      exact hinv.2.1 w0 (by simp [hws])
  · intro orient w hw
    obtain ⟨h1, h2, h3⟩ := change_orient_existing s orient w hw
    refine ⟨h1, h2, _, h3, ?_, rfl, rfl⟩
    rcases menu_window_of_Owned (Inv_change_orient s orient hinv).1 with
      ⟨_, _, hnone⟩ | ⟨m, _, hws, hm⟩
    · rw [hnone] at h3
      cases h3
    · have hmm := Option.some.inj (hm.symm.trans h3)
      rw [← hmm]
      exact hws

/-- The anchor invariant applied to the ready sample applet. -/
theorem menu_anchor_follows_orientation_witness :
    Reachable sample_ready ∧
    (∃ w, menu_window (brisk_menu_applet_change_orient sample_ready
        .MATE_PANEL_APPLET_ORIENT_LEFT) = some w) ∧
    (∀ w, menu_window sample_ready = some w →
      w.parent_position = some (convert_mate_position sample_ready.orient)) :=
  ⟨⟨sample_settings, .MATE_PANEL_APPLET_ORIENT_UP,
      [.orientation_change .MATE_PANEL_APPLET_ORIENT_UP], rfl⟩,
   (menu_anchor_follows_orientation sample_ready
      ⟨sample_settings, .MATE_PANEL_APPLET_ORIENT_UP,
        [.orientation_change .MATE_PANEL_APPLET_ORIENT_UP], rfl⟩).1
      .MATE_PANEL_APPLET_ORIENT_LEFT,
   (menu_anchor_follows_orientation sample_ready
      ⟨sample_settings, .MATE_PANEL_APPLET_ORIENT_UP,
        [.orientation_change .MATE_PANEL_APPLET_ORIENT_UP], rfl⟩).2.1⟩

/-! ## Automatic window type and the current orientation (C9) -/

theorem AutomaticVariantMatches_iff (s : BriskMenuApplet) :
    AutomaticVariantMatches s ↔
      (s.settings.window_type = .WINDOW_TYPE_AUTOMATIC →
        ∀ w, menu_window s = some w → w.variant = brisk_menu_applet_automatic_window_type s) := by
  unfold AutomaticVariantMatches brisk_menu_applet_automatic_window_type
  cases s.orient <;> simp

theorem automatic_window_type_congr {a b : BriskMenuApplet} (h : a.orient = b.orient) :
    brisk_menu_applet_automatic_window_type a = brisk_menu_applet_automatic_window_type b := by
  unfold brisk_menu_applet_automatic_window_type
  rw [h]

theorem create_window_variant_automatic {t : BriskMenuApplet}
    (h : t.settings.window_type = .WINDOW_TYPE_AUTOMATIC) :
    create_window_variant t = brisk_menu_applet_automatic_window_type t := by
  simp [create_window_variant, h]

/-- Right after construction the automatic choice matches the stored
orientation. -/
theorem create_window_matches (t : BriskMenuApplet) :
    AutomaticVariantMatches (brisk_menu_applet_create_window t) := by
  rw [AutomaticVariantMatches_iff]
  obtain ⟨hs, ho⟩ := create_window_frame t
  intro hauto w hw
  rw [menu_window_create_window] at hw
  rw [hs] at hauto
  rw [← Option.some.inj hw, automatic_window_type_congr ho]
  simp [brisk_menu_window_new, create_window_variant_automatic hauto]

theorem settings_changed_matches (s : BriskMenuApplet) (key : String)
    (h : AutomaticVariantMatches s) :
    AutomaticVariantMatches (brisk_menu_applet_settings_changed s key) := by
  by_cases hk : key = "window-type"
  · subst hk
    rw [settings_changed_window_type]
    exact create_window_matches _
  · obtain ⟨hw, hm, ho, _, hs⟩ := settings_changed_windows_of_ne s key hk
    rw [AutomaticVariantMatches_iff] at h ⊢
    intro hauto w hmw
    rw [automatic_window_type_congr ho]
    apply h (hs ▸ hauto)
    unfold menu_window at hmw ⊢
    rw [← hm, ← hw]
    exact hmw

theorem button_press_cb_matches (s next : BriskMenuApplet) (b : Nat) (ret : Bool)
    (h : AutomaticVariantMatches s) (hstep : button_press_cb s b = some (next, ret)) :
    AutomaticVariantMatches next := by
  unfold button_press_cb at hstep
  by_cases hb : b = 1
  · subst hb
    cases hmw : menu_window s with
    | none => simp [hmw] at hstep
    | some w =>
      simp only [hmw, ne_eq, not_true_eq_false, if_false, Option.some.injEq,
        Prod.mk.injEq] at hstep
      rw [AutomaticVariantMatches_iff] at h ⊢
      rw [← hstep.1]
      intro hauto m hm
      cases hv : w.visible
      · simp only [hv, Bool.not_false, if_true] at hauto hm ⊢
        obtain ⟨f1, f2, _⟩ := set_visible_frame (brisk_menu_window_update_screen_position s) true
        obtain ⟨g1, g2, _⟩ := update_screen_position_frame s
        rw [menu_window_set_visible _ _ true (menu_window_update_screen_position s w hmw)] at hm
        rw [← Option.some.inj hm, automatic_window_type_congr (f2.trans g2)]
        exact h ((f1.trans g1) ▸ hauto) w hmw
      · simp only [hv, Bool.not_true, Bool.false_eq_true, if_false] at hauto hm ⊢
        obtain ⟨f1, f2, _⟩ := set_visible_frame s false
        rw [menu_window_set_visible _ _ false hmw] at hm
        rw [← Option.some.inj hm, automatic_window_type_congr f2]
        exact h (f1 ▸ hauto) w hmw
  · simp only [ne_eq, hb, not_false_eq_true, if_true, Option.some.injEq, Prod.mk.injEq] at hstep
    rw [← hstep.1]
    exact h

theorem change_orient_matches (s : BriskMenuApplet) (orient : MatePanelAppletOrient)
    (hown : Owned s) (h : AutomaticVariantMatches s)
    (hk : keeps_variant_choice s (.orientation_change orient)) :
    AutomaticVariantMatches (brisk_menu_applet_change_orient s orient) := by
  rcases menu_window_of_Owned hown with ⟨hm, _, _⟩ | ⟨w0, hm0, _, hw0⟩
  · have h3 := (adapt_layout_frame { s with orient := orient }).2.2.1
    have hm2 : (brisk_menu_applet_adapt_layout { s with orient := orient }).menu = none :=
      h3.trans hm
    have hc : brisk_menu_applet_change_orient s orient =
        brisk_menu_applet_create_window
          (brisk_menu_applet_adapt_layout { s with orient := orient }) := by
      simp only [brisk_menu_applet_change_orient, hm2]
    rw [hc]
    exact create_window_matches _
  · obtain ⟨_, _, h3⟩ := change_orient_existing s orient w0 hw0
    obtain ⟨f1, f2⟩ := change_orient_frame s orient
    rw [AutomaticVariantMatches_iff] at h ⊢
    intro hauto m hm
    rw [f1] at hauto
    rw [h3] at hm
    rw [← Option.some.inj hm]
    have hsame : brisk_menu_applet_automatic_window_type
        (brisk_menu_applet_change_orient s orient) =
        brisk_menu_applet_automatic_window_type s := by
      rcases hk with hnone | hne | heq
      · rw [hm0] at hnone
        cases hnone
      · exact absurd hauto hne
      · rw [← heq]
        exact automatic_window_type_congr f2
    rw [hsame]
    exact h hauto w0 hw0

theorem step_matches (s next : BriskMenuApplet) (e : Event) (hown : Owned s)
    (h : AutomaticVariantMatches s) (hk : keeps_variant_choice s e)
    (hstep : step s e = some next) : AutomaticVariantMatches next := by
  cases e with
  | orientation_change orient =>
    simp only [step, Option.some.injEq] at hstep
    rw [← hstep]
    exact change_orient_matches s orient hown h hk
  | size_change size =>
    simp only [step, Option.some.injEq] at hstep
    rw [← hstep]
    exact h
  | preference_change change =>
    simp only [step, Option.some.injEq] at hstep
    rw [← hstep]
    cases change with
    | window_type v =>
      simp only [preference_changed, settings_changed_window_type]
      exact create_window_matches _
    | label_text v => exact settings_changed_matches _ _ h
    | icon_name v => exact settings_changed_matches _ _ h
    | icon_symbolic v => exact settings_changed_matches _ _ h
    | label_visible v => exact h
  | toggle_click button =>
    simp only [step] at hstep
    cases hb : button_press_cb s button with
    | none => simp [hb] at hstep
    | some res =>
      obtain ⟨mid, ret⟩ := res
      simp only [hb, Option.map_some', Option.some.injEq] at hstep
      subst hstep
      exact button_press_cb_matches s mid button ret h hb

theorem run_matches (events : List Event) (s next : BriskMenuApplet) (hinv : Inv s)
    (h : AutomaticVariantMatches s) (hk : variant_stable s events)
    (hrun : run s events = some next) : AutomaticVariantMatches next := by
  induction events generalizing s with
  | nil =>
    simp only [run, Option.some.injEq] at hrun
    rw [← hrun]
    exact h
  | cons e es ih =>
    simp only [run] at hrun
    cases hs : step s e with
    | none => simp [hs] at hrun
    | some mid =>
      simp only [hs, Option.bind_some] at hrun
      exact ih mid (Inv_step s mid e hinv hs) (step_matches s mid e hinv.1 h hk.1 hs)
        (hk.2 mid hs) hrun

theorem AutomaticVariantMatches_init (settings : Settings) (orient0 : MatePanelAppletOrient) :
    AutomaticVariantMatches (brisk_menu_applet_init settings orient0) := by
  have h1 := settings_changed_windows_of_ne
  have hm : (brisk_menu_applet_init settings orient0).menu = none := by
    simp only [brisk_menu_applet_init]
    rw [(h1 _ "icon-name" (by decide)).2.1, (h1 _ "label-text" (by decide)).2.1]
  intro _ w hw
  simp [menu_window, hm] at hw

/-- C9 as stated fails: the sample applet (automatic preference) gets its
window on a bottom panel (up orientation) and is then moved to the left
orientation. The state is reachable, the preference is automatic, the
orientation is left, and the menu window is still the classic variant. -/
theorem automatic_variant_stale_after_move :
    Reachable sample_moved ∧
    sample_moved.settings.window_type = .WINDOW_TYPE_AUTOMATIC ∧
    sample_moved.orient = .MATE_PANEL_APPLET_ORIENT_LEFT ∧
    (∃ w, menu_window sample_moved = some w ∧ w.variant = .classic) ∧
    ¬ AutomaticVariantMatches sample_moved := by
  have hw : menu_window sample_moved =
      some { id := 0, variant := .classic, visible := false,
             parent_position := some .GTK_POS_RIGHT, menus_loaded := true,
             settings_pumped := true, screen_position_updates := 0 } := by decide
  refine ⟨⟨sample_settings, .MATE_PANEL_APPLET_ORIENT_UP,
      [.orientation_change .MATE_PANEL_APPLET_ORIENT_UP,
       .orientation_change .MATE_PANEL_APPLET_ORIENT_LEFT], rfl⟩, rfl, rfl, ⟨_, hw, rfl⟩, ?_⟩
  intro h
  have hdash := (h rfl _ hw).1 (Or.inl rfl)
  exact absurd hdash (by decide)

/-- C9, amended: in every state reached from the initial applet state by
orientation-change, size-change, preference-change and toggle-click events
such that no orientation-change event arrives while a menu window exists, the
preference is automatic and the new orientation would select the other
variant, an existing menu window under the automatic preference is dash for
the left and right orientations and classic for every other orientation. An orientation change on an applet that has
a menu window keeps that window and its variant. -/
theorem automatic_variant_of_stable_run (settings : Settings)
    (orient0 : MatePanelAppletOrient) (events : List Event) (s : BriskMenuApplet)
    (hrun : run (brisk_menu_applet_init settings orient0) events = some s)
    (hstable : variant_stable (brisk_menu_applet_init settings orient0) events) :
    AutomaticVariantMatches s ∧
    ∀ orient w, menu_window s = some w →
      ∃ m, menu_window (brisk_menu_applet_change_orient s orient) = some m ∧
        m.id = w.id ∧ m.variant = w.variant := by
  refine ⟨run_matches events _ s (Inv_init settings orient0)
    (AutomaticVariantMatches_init settings orient0) hstable hrun, ?_⟩
  intro orient w hw
  exact ⟨_, (change_orient_existing s orient w hw).2.2, rfl, rfl⟩

/-- The sample applet receives its first orientation, left. -/
theorem automatic_variant_of_stable_run_witness :
    run (brisk_menu_applet_init sample_settings .MATE_PANEL_APPLET_ORIENT_UP)
        [.orientation_change .MATE_PANEL_APPLET_ORIENT_LEFT] =
      some (brisk_menu_applet_change_orient sample_applet .MATE_PANEL_APPLET_ORIENT_LEFT) ∧
    variant_stable (brisk_menu_applet_init sample_settings .MATE_PANEL_APPLET_ORIENT_UP)
      [.orientation_change .MATE_PANEL_APPLET_ORIENT_LEFT] ∧
    AutomaticVariantMatches
      (brisk_menu_applet_change_orient sample_applet .MATE_PANEL_APPLET_ORIENT_LEFT) :=
  ⟨rfl, ⟨Or.inl rfl, fun _ _ => trivial⟩,
   (automatic_variant_of_stable_run sample_settings .MATE_PANEL_APPLET_ORIENT_UP
      [.orientation_change .MATE_PANEL_APPLET_ORIENT_LEFT]
      (brisk_menu_applet_change_orient sample_applet .MATE_PANEL_APPLET_ORIENT_LEFT)
      rfl ⟨Or.inl rfl, fun _ _ => trivial⟩).1⟩

end BriskMenu
